import Mathlib

/-!
# CineMind backend — formal model of the multi-agent movie-analysis pipeline

Shallow embedding of `src/backend/server.py` (repository yathinsaig/CINEMIND).

Modelling conventions:
* Python strings are `List Char` (named `Pstr` below); `str.strip`, `str.split`,
  `str.startswith`, slicing and `in` are modelled by executable list functions.
* Python's `json.loads` is modelled by the executable parser `loads` below
  (JSON values, objects as association lists where a later duplicate key wins,
  numeric literals kept as their source token).
* A Python exception that escapes an agent is modelled with `Except PyErr`;
  the bare `try/except` blocks inside the agents are modelled by total
  functions returning the documented fallback.
* Each call to the generation port (`chat.send_message`) is recorded by the
  user prompt it sends, so a function's list of prompts is its trace of
  generation-port calls.
* `uuid`, timestamps, logging and the HTTP/Mongo plumbing are outside the
  model; the single `insert_one` of the endpoint is modelled by the
  `persisted` component of `EndpointOutcome`.
-/

namespace CineMind

/-- Python strings, modelled as lists of characters. -/
abbrev Pstr := List Char

/-- Whitespace as stripped by Python's `str.strip()`. -/
def isPyWs (c : Char) : Bool :=
  c = ' ' || c = '\t' || c = '\n' || c = '\r' || c = '\x0b' || c = '\x0c'

/-- Python `s.strip()`: remove leading and trailing whitespace. -/
def strip (l : Pstr) : Pstr :=
  ((l.dropWhile isPyWs).reverse.dropWhile isPyWs).reverse

/-- JSON values, as produced by `json.loads`. Object fields are kept in
source order; `lookupLast` below gives the later duplicate key precedence,
matching Python dict construction. Numeric literals are kept as their
source token. -/
inductive Json where
  | null : Json
  | bool (b : Bool) : Json
  | num (tok : Pstr) : Json
  | str (s : Pstr) : Json
  | arr (items : List Json) : Json
  | obj (fields : List (Pstr × Json)) : Json

/-- Whitespace skipped by the JSON grammar. -/
def isJsonWs (c : Char) : Bool :=
  c = ' ' || c = '\t' || c = '\n' || c = '\r'

/-- Skip leading JSON whitespace. -/
def skipWs (l : Pstr) : Pstr := l.dropWhile isJsonWs

/-- Value of a hexadecimal digit. -/
def hexVal (c : Char) : Option Nat :=
  if '0' ≤ c ∧ c ≤ '9' then some (c.toNat - 48)
  else if 'a' ≤ c ∧ c ≤ 'f' then some (c.toNat - 87)
  else if 'A' ≤ c ∧ c ≤ 'F' then some (c.toNat - 55)
  else none

/-- Parse the body of a JSON string literal (after the opening quote),
decoding escapes; returns the decoded string and the rest of the input. -/
def parseStrBody : Nat → Pstr → Option (Pstr × Pstr)
  | 0, _ => none
  | _, [] => none
  | fuel+1, c :: rest =>
    if c = '"' then some ([], rest)
    else if c = '\\' then
      match rest with
      | [] => none
      | e :: rest2 =>
        let dec : Option (Char × Pstr) :=
          if e = '"' then some ('"', rest2)
          else if e = '\\' then some ('\\', rest2)
          else if e = '/' then some ('/', rest2)
          else if e = 'b' then some ('\x08', rest2)
          else if e = 'f' then some ('\x0c', rest2)
          else if e = 'n' then some ('\n', rest2)
          else if e = 'r' then some ('\r', rest2)
          else if e = 't' then some ('\t', rest2)
          else if e = 'u' then
            match rest2 with
            | h1 :: h2 :: h3 :: h4 :: rest3 =>
              match hexVal h1, hexVal h2, hexVal h3, hexVal h4 with
              | some a, some b, some c2, some d =>
                  some (Char.ofNat (((a * 16 + b) * 16 + c2) * 16 + d), rest3)
              | _, _, _, _ => none
            | _ => none
          else none
        match dec with
        | none => none
        | some (ch, r) =>
          match parseStrBody fuel r with
          | some (s, r2) => some (ch :: s, r2)
          | none => none
    else
      match parseStrBody fuel rest with
      | some (s, r2) => some (c :: s, r2)
      | none => none

/-- Parse an optional fraction part `.digits` of a numeric literal. -/
def parseFrac (l : Pstr) : Option (Pstr × Pstr) :=
  match l with
  | '.' :: r =>
    let fs := r.takeWhile Char.isDigit
    if fs = [] then none else some ('.' :: fs, r.dropWhile Char.isDigit)
  | _ => some ([], l)

/-- Parse an optional exponent part `e[+-]digits` of a numeric literal. -/
def parseExpPart (l : Pstr) : Option (Pstr × Pstr) :=
  match l with
  | [] => some ([], [])
  | e :: r =>
    if e = 'e' || e = 'E' then
      let sg : Pstr × Pstr :=
        match r with
        | '+' :: r2 => (['+'], r2)
        | '-' :: r2 => (['-'], r2)
        | _ => ([], r)
      let ds := sg.2.takeWhile Char.isDigit
      if ds = [] then none
      else some (e :: (sg.1 ++ ds), sg.2.dropWhile Char.isDigit)
    else some ([], e :: r)

/-- Parse a JSON numeric literal, returning its token and the rest. -/
def parseNumTok (l : Pstr) : Option (Pstr × Pstr) :=
  let sgn : Pstr × Pstr :=
    match l with
    | '-' :: r => (['-'], r)
    | _ => ([], l)
  let ds := sgn.2.takeWhile Char.isDigit
  if ds = [] then none
  else
    match parseFrac (sgn.2.dropWhile Char.isDigit) with
    | none => none
    | some (f, r2) =>
      match parseExpPart r2 with
      | none => none
      | some (ex, r3) => some (sgn.1 ++ ds ++ f ++ ex, r3)

mutual

/-- Parse one JSON value; `Option` of the value and the remaining input. -/
def parseValue : Nat → Pstr → Option (Json × Pstr)
  | 0, _ => none
  | fuel+1, l =>
    match skipWs l with
    | [] => none
    | c :: rest =>
      if c = '{' then
        match skipWs rest with
        | '}' :: r => some (.obj [], r)
        | _ =>
          match parseMembers fuel rest with
          | some (ms, r) => some (.obj ms, r)
          | none => none
      else if c = '[' then
        match skipWs rest with
        | ']' :: r => some (.arr [], r)
        | _ =>
          match parseItems fuel rest with
          | some (vs, r) => some (.arr vs, r)
          | none => none
      else if c = '"' then
        match parseStrBody (rest.length + 1) rest with
        | some (s, r) => some (.str s, r)
        | none => none
      else if c = 't' then
        match rest with
        | 'r' :: 'u' :: 'e' :: r => some (.bool true, r)
        | _ => none
      else if c = 'f' then
        match rest with
        | 'a' :: 'l' :: 's' :: 'e' :: r => some (.bool false, r)
        | _ => none
      else if c = 'n' then
        match rest with
        | 'u' :: 'l' :: 'l' :: r => some (.null, r)
        | _ => none
      else
        match parseNumTok (c :: rest) with
        | some (tok, r) => some (.num tok, r)
        | none => none

/-- Parse the members of a JSON object (at least one `"key": value`). -/
def parseMembers : Nat → Pstr → Option (List (Pstr × Json) × Pstr)
  | 0, _ => none
  | fuel+1, l =>
    match skipWs l with
    | '"' :: r =>
      match parseStrBody (r.length + 1) r with
      | none => none
      | some (k, r1) =>
        match skipWs r1 with
        | ':' :: r2 =>
          match parseValue fuel r2 with
          | none => none
          | some (v, r3) =>
            match skipWs r3 with
            | ',' :: r4 =>
              match parseMembers fuel r4 with
              | some (ms, r5) => some ((k, v) :: ms, r5)
              | none => none
            | '}' :: r4 => some ([(k, v)], r4)
            | _ => none
        | _ => none
    | _ => none

/-- Parse the items of a JSON array (at least one value). -/
def parseItems : Nat → Pstr → Option (List Json × Pstr)
  | 0, _ => none
  | fuel+1, l =>
    match parseValue fuel l with
    | none => none
    | some (v, r) =>
      match skipWs r with
      | ',' :: r2 =>
        match parseItems fuel r2 with
        | some (vs, r3) => some (v :: vs, r3)
        | none => none
      | ']' :: r2 => some ([v], r2)
      | _ => none

end

/-- Model of Python `json.loads`: one JSON value surrounded only by
whitespace, otherwise failure (`none` stands for a raised `ValueError`). -/
def loads (l : Pstr) : Option Json :=
  match parseValue (l.length + 1) l with
  | some (j, rest) => if skipWs rest = [] then some j else none
  | none => none

/-- Last binding of a key in an object's field list (Python dict semantics:
a later duplicate key wins). -/
def lookupLast (fields : List (Pstr × Json)) (k : Pstr) : Option Json :=
  match fields with
  | [] => none
  | (k', v) :: rest =>
    match lookupLast rest k with
    | some v' => some v'
    | none => if k' = k then some v else none

/-- Python exceptions that the modelled code can raise. -/
inductive PyErr where
  | attributeError : PyErr
  | validationError : PyErr

/-- Rendering of an exception, standing in for Python's `str(e)`. -/
def pyErrStr : PyErr → Pstr
  | .attributeError => "AttributeError".toList
  | .validationError => "ValidationError".toList

/-- Python `value.get(key, default)`: succeeds on a dict, raises
`AttributeError` on any other JSON value. -/
def dictGet (j : Json) (k : Pstr) (default : Json) : Except PyErr Json :=
  match j with
  | .obj fields => .ok ((lookupLast fields k).getD default)
  | _ => .error .attributeError

/-- The code-fence marker three backticks, as split on by the agents. -/
def fence : Pstr := "```".toList

/-- The language tag stripped after a fence, `cleaned[4:]` in the source. -/
def jsonTag : Pstr := "json".toList

/-- Python `cleaned.split("```")` (non-overlapping, left to right). -/
def splitTicks : Pstr → List Pstr
  | [] => [[]]
  | c :: rest =>
    if fence.isPrefixOf (c :: rest) then
      [] :: splitTicks (rest.drop 2)
    else
      match splitTicks rest with
      | [] => [[c]]
      | t :: ts => (c :: t) :: ts
termination_by l => l.length
decreasing_by
  · simp only [List.length_cons, List.length_drop]
    omega
  · simp

/-- The deterministic cleaning step shared (by copy-paste in the source) by
every JSON-shaped agent: strip whitespace, take the first fenced block if
the text starts with a fence, and strip a leading `json` language tag. -/
def cleanCompletion (response : Pstr) : Pstr :=
  let cleaned := strip response
  if fence.isPrefixOf cleaned then
    let cleaned := ((splitTicks cleaned)[1]?).getD []
    if jsonTag.isPrefixOf cleaned then cleaned.drop 4 else cleaned
  else cleaned

/-- The `try: ... json.loads(cleaned) except: return fallback` pattern of the
JSON-shaped agents: the parsed value on success, the fallback on any error. -/
def extractJson (response : Pstr) (fallback : Json) : Json :=
  match loads (cleanCompletion response) with
  | some j => j
  | none => fallback

/-- Python `str(value)` as used by f-string interpolation. Scalar cases are
faithful; the rendering of lists and dicts approximates Python's `repr` and
no claim depends on it. -/
def pyStr : Json → Pstr
  | .str s => s
  | .num tok => tok
  | .bool true => "True".toList
  | .bool false => "False".toList
  | .null => "None".toList
  | .arr _ => "[...]".toList
  | .obj _ => "{...}".toList

/-- Python `str.lower()`; ASCII case folding (the spoiler words are ASCII). -/
def lowerStr (l : Pstr) : Pstr := l.map Char.toLower

/-- Python `needle in haystack` substring test. -/
def containsSub (needle : Pstr) : Pstr → Bool
  | [] => needle.isEmpty
  | c :: rest => needle.isPrefixOf (c :: rest) || containsSub needle rest

/-- Python `sep.join(parts)`. -/
def joinSep (sep : Pstr) : List Pstr → Pstr
  | [] => []
  | [x] => x
  | x :: xs => x ++ sep ++ joinSep sep xs

/-- `UserPreferences` (server.py:39-43). -/
structure UserPreferences where
  favorite_genres : List Pstr := []
  favorite_languages : List Pstr := []
  favorite_movies : List Pstr := []
  current_mood : Option Pstr := none

/-- Python truthiness of a list field (`not preferences.get(...)`). -/
def truthyList (l : List Pstr) : Bool := !l.isEmpty

/-- Python truthiness of the optional `current_mood` string. -/
def truthyMood : Option Pstr → Bool
  | none => false
  | some m => !m.isEmpty

/-- `MovieAnalysisRequest` (server.py:45-47). -/
structure MovieAnalysisRequest where
  movie_title : Pstr
  preferences : Option UserPreferences := none

/-- `Recommendation` (server.py:49-51). -/
structure Recommendation where
  title : Pstr
  reason : Pstr

/-- `MovieAnalysisResponse` (server.py:53-65); `id` and `timestamp` are
generated outside the model. -/
structure MovieAnalysisResponse where
  movie_title : Pstr
  genre : Pstr
  overall_sentiment : Pstr
  critic_analysis : Pstr
  audience_sentiment : Pstr
  summary : Pstr
  recommendations : List Recommendation
  personalized_recommendations : List Recommendation
  instagram_captions : List Pstr

/-! ## Agent functions

Each agent takes the completion the generation port returns for its single
`send_message` call and also returns the list of user prompts it sent, so
the second component is its trace of generation-port calls. -/

/-- User prompt of the Planner agent (server.py:99). -/
def plannerPrompt (movie_title : Pstr) : Pstr :=
  "Analyze this movie/series: '".toList ++ movie_title ++
    "'. Provide the genre, approximate year, and whether it's a Movie or TV Series.".toList

/-- Fallback of the Planner agent on parse failure (server.py:111). -/
def plannerFallback : Json :=
  .obj [("genre".toList, .str "Drama".toList),
        ("year".toList, .str "N/A".toList),
        ("type".toList, .str "Movie".toList)]

/-- `planner_agent` (server.py:91-111). -/
def planner_agent (movie_title : Pstr) (completion : Pstr) : Json × List Pstr :=
  (extractJson completion plannerFallback, [plannerPrompt movie_title])

/-- User prompt of the Critic agent (server.py:121). -/
def criticPrompt (movie_title : Pstr) (genre : Json) : Pstr :=
  "Provide a professional critique of '".toList ++ movie_title ++ "' (".toList ++
    pyStr genre ++ "). Focus on technical and artistic merits without spoilers.".toList

/-- `critic_agent` (server.py:113-123): returns the raw completion. -/
def critic_agent (movie_title : Pstr) (genre : Json) (completion : Pstr) :
    Pstr × List Pstr :=
  (completion, [criticPrompt movie_title genre])

/-- User prompt of the Sentiment agent (server.py:133). -/
def sentimentPrompt (movie_title : Pstr) : Pstr :=
  "Analyze the general audience sentiment for '".toList ++ movie_title ++
    "'. What do audiences typically praise or criticize?".toList

/-- Fallback of the Sentiment agent on parse failure (server.py:145). -/
def sentimentFallback : Json :=
  .obj [("overall".toList, .str "Mixed".toList),
        ("analysis".toList,
         .str "Audience reception varies based on individual preferences.".toList)]

/-- `sentiment_agent` (server.py:125-145). -/
def sentiment_agent (movie_title : Pstr) (completion : Pstr) : Json × List Pstr :=
  (extractJson completion sentimentFallback, [sentimentPrompt movie_title])

/-- User prompt of the Summary agent (server.py:154). -/
def summaryPrompt (movie_title : Pstr) (genre : Json) : Pstr :=
  "Write a spoiler-free summary for '".toList ++ movie_title ++ "' (".toList ++
    pyStr genre ++ ") in under 120 words.".toList

/-- `summary_agent` (server.py:147-156): returns the raw completion. -/
def summary_agent (movie_title : Pstr) (genre : Json) (completion : Pstr) :
    Pstr × List Pstr :=
  (completion, [summaryPrompt movie_title genre])

/-- User prompt of the Recommendation agent (server.py:166). -/
def recommendationPrompt (movie_title : Pstr) (genre : Json) : Pstr :=
  "Recommend 5 movies/series similar to '".toList ++ movie_title ++ "' (".toList ++
    pyStr genre ++ "). Consider genre, tone, themes, and style.".toList

/-- Fallback of the Recommendation agent on parse failure (server.py:178):
a single placeholder recommendation. -/
def recommendationFallback : Json :=
  .arr [.obj [("title".toList, .str "Similar Movie".toList),
              ("reason".toList, .str "Based on similar themes and genre.".toList)]]

/-- `recommendation_agent` (server.py:158-178). -/
def recommendation_agent (movie_title : Pstr) (genre : Json) (completion : Pstr) :
    Json × List Pstr :=
  (extractJson completion recommendationFallback, [recommendationPrompt movie_title genre])

/-- User prompt of the Social Media agent (server.py:188). -/
def socialPrompt (movie_title : Pstr) (genre : Json) : Pstr :=
  "Create 3 Instagram captions for a post about '".toList ++ movie_title ++
    "' (".toList ++ pyStr genre ++ "). Make them engaging and shareable.".toList

/-- Fallback captions of the Social Media agent (server.py:200-204):
three deterministic templates embedding the title. -/
def socialFallback (movie_title : Pstr) : Json :=
  .arr [.str ("Just watched ".toList ++ movie_title ++ "! 🎬✨ #MovieNight #Cinema".toList),
        .str (movie_title ++ " hits different 🔥 #MustWatch #Film".toList),
        .str ("This one's a gem 💎 ".toList ++ movie_title ++ " #Movies #Recommended".toList)]

/-- `social_media_agent` (server.py:180-204). -/
def social_media_agent (movie_title : Pstr) (genre : Json) (completion : Pstr) :
    Json × List Pstr :=
  (extractJson completion (socialFallback movie_title), [socialPrompt movie_title genre])

/-- The preference lines joined into the prompt (server.py:211-221). -/
def prefContext (p : UserPreferences) : List Pstr :=
  (if truthyList p.favorite_genres then
     ["Preferred genres: ".toList ++ joinSep ", ".toList p.favorite_genres] else []) ++
  (if truthyList p.favorite_languages then
     ["Preferred languages: ".toList ++ joinSep ", ".toList p.favorite_languages] else []) ++
  (if truthyList p.favorite_movies then
     ["Favorite movies: ".toList ++ joinSep ", ".toList (p.favorite_movies.take 5)] else []) ++
  (match p.current_mood with
   | some m => if !m.isEmpty then ["Current mood: ".toList ++ m] else []
   | none => [])

/-- User prompt of the Personalized Recommendation agent (server.py:230-233). -/
def personalizedPrompt (movie_title : Pstr) (genre : Json) (p : UserPreferences) : Pstr :=
  "Based on the movie '".toList ++ movie_title ++ "' (".toList ++ pyStr genre ++
    ") and the user's preferences: ".toList ++ joinSep ". ".toList (prefContext p) ++
    ". Recommend 5 movies/series that would perfectly match their taste and current mood.".toList

/-- `personalized_recommendation_agent` (server.py:206-245): returns an
empty list with zero generation-port calls when preferences are absent or
all four fields are empty; the parse fallback is also the empty list. -/
def personalized_recommendation_agent (movie_title : Pstr) (genre : Json)
    (preferences : Option UserPreferences) (completion : Pstr) : Json × List Pstr :=
  match preferences with
  | none => (.arr [], [])
  | some p =>
    if !truthyList p.favorite_genres && !truthyList p.favorite_languages &&
       !truthyList p.favorite_movies && !truthyMood p.current_mood then
      (.arr [], [])
    else
      (extractJson completion (.arr []), [personalizedPrompt movie_title genre p])

/-! ## Validator and orchestrator -/

/-- The draft assembled by the orchestrator (server.py:311-321) before the
validator runs. `critic_analysis` and `summary` are always raw completions,
hence strings; the JSON-derived fields can be arbitrary JSON values. -/
structure Draft where
  movie_title : Pstr
  genre : Json
  overall_sentiment : Json
  critic_analysis : Pstr
  audience_sentiment : Json
  summary : Pstr
  recommendations : Json
  personalized_recommendations : Json
  instagram_captions : Json

/-- The fixed spoiler-indicating substrings (server.py:250). -/
def spoiler_words : List Pstr :=
  ["dies".toList, "killed".toList, "murder".toList, "twist is".toList,
   "ending".toList, "final scene".toList, "plot twist".toList]

/-- Python `value.lower()`: succeeds on a string, raises `AttributeError`
on any other JSON value. -/
def pyLower (v : Json) : Except PyErr Pstr :=
  match v with
  | .str s => .ok (lowerStr s)
  | _ => .error .attributeError

/-- Spoiler words found in one lowercased content string (server.py:255-257);
each hit is only logged as a warning. -/
def spoilerHits (content : Pstr) : List Pstr :=
  spoiler_words.filter (fun w => containsSub w content)

/-- The list coercion of the validator (server.py:260-275): a list is
truncated to its first `n` entries, any non-list value is replaced with the
empty list. -/
def capList (v : Json) (n : Nat) : Json :=
  match v with
  | .arr l => .arr (l.take n)
  | _ => .arr []

/-- `validator_agent` (server.py:247-277). Deterministic, no generation
call. Scans the three text fields for spoiler words (warnings only; the
`.lower()` call raises `AttributeError` when `audience_sentiment` is not a
string), coerces `recommendations` to a list truncated to 5 and
`instagram_captions` to a list truncated to 3, and leaves every other field
unchanged. Returns the cleaned draft and the warning signals. -/
def validator_agent (analysis_data : Draft) : Except PyErr (Draft × List Pstr) :=
  match pyLower analysis_data.audience_sentiment with
  | .error e => .error e
  | .ok audienceLower =>
    let warnings :=
      spoilerHits (lowerStr analysis_data.critic_analysis) ++
      spoilerHits (lowerStr analysis_data.summary) ++
      spoilerHits audienceLower
    .ok ({ analysis_data with
           recommendations := capList analysis_data.recommendations 5,
           instagram_captions := capList analysis_data.instagram_captions 3 },
         warnings)

/-- One completion per generation-port call of a pipeline run. -/
structure Completions where
  planner : Pstr
  critic : Pstr
  sentiment : Pstr
  summary : Pstr
  recommendation : Pstr
  social : Pstr
  personalized : Pstr

/-- `MultiAgentOrchestrator.analyze_movie` (server.py:279-328): the
sequential pipeline. Returns the validated draft (or the Python exception
that escaped) together with the user prompts sent to the generation port,
in order. -/
def analyze_movie (movie_title : Pstr) (preferences : Option UserPreferences)
    (c : Completions) : Except PyErr Draft × List Pstr :=
  let plan := planner_agent movie_title c.planner
  match dictGet plan.1 "genre".toList (.str "Drama".toList) with
  | .error e => (.error e, plan.2)
  | .ok genre =>
    let critic := critic_agent movie_title genre c.critic
    let sentiment := sentiment_agent movie_title c.sentiment
    let summaryR := summary_agent movie_title genre c.summary
    let recommendations := recommendation_agent movie_title genre c.recommendation
    let captions := social_media_agent movie_title genre c.social
    let personalized :=
      if preferences.isSome then
        personalized_recommendation_agent movie_title genre preferences c.personalized
      else (Json.arr [], [])
    let prompts := plan.2 ++ critic.2 ++ sentiment.2 ++ summaryR.2 ++
      recommendations.2 ++ captions.2 ++ personalized.2
    let result : Except PyErr Draft :=
      match dictGet sentiment.1 "overall".toList (.str "Mixed".toList) with
      | .error e => .error e
      | .ok overall =>
        match dictGet sentiment.1 "analysis".toList (.str []) with
        | .error e => .error e
        | .ok audience =>
          let analysis_result : Draft :=
            { movie_title := movie_title
              genre := genre
              overall_sentiment := overall
              critic_analysis := critic.1
              audience_sentiment := audience
              summary := summaryR.1
              recommendations := recommendations.1
              personalized_recommendations := personalized.1
              instagram_captions := captions.1 }
          match validator_agent analysis_result with
          | .error e => .error e
          | .ok (validated, _warnings) => .ok validated
    (result, prompts)

/-! ## Pydantic response construction and the HTTP endpoint -/

/-- Pydantic coercion of a JSON value into a `str` field (v2 default:
only a string is accepted). -/
def asStr : Json → Except PyErr Pstr
  | .str s => .ok s
  | _ => .error .validationError

/-- Pydantic coercion into a `Recommendation` (title and reason must be
strings; extra keys are ignored). -/
def asRecommendation : Json → Except PyErr Recommendation
  | .obj fields =>
    match lookupLast fields "title".toList, lookupLast fields "reason".toList with
    | some (.str t), some (.str r) => .ok ⟨t, r⟩
    | _, _ => .error .validationError
  | _ => .error .validationError

/-- Pydantic coercion into `List[Recommendation]`. -/
def asRecList : Json → Except PyErr (List Recommendation)
  | .arr items => items.mapM asRecommendation
  | _ => .error .validationError

/-- Pydantic coercion into `List[str]`. -/
def asStrList : Json → Except PyErr (List Pstr)
  | .arr items => items.mapM asStr
  | _ => .error .validationError

/-- `MovieAnalysisResponse(**analysis_result)` (server.py:349): pydantic
validation of the validated draft; raises `ValidationError` on any
wrong-shaped field. -/
def mkResponse (d : Draft) : Except PyErr MovieAnalysisResponse :=
  match asStr d.genre, asStr d.overall_sentiment, asStr d.audience_sentiment,
        asRecList d.recommendations, asRecList d.personalized_recommendations,
        asStrList d.instagram_captions with
  | .ok genre, .ok overall, .ok audience, .ok recs, .ok pers, .ok caps =>
    .ok { movie_title := d.movie_title
          genre := genre
          overall_sentiment := overall
          critic_analysis := d.critic_analysis
          audience_sentiment := audience
          summary := d.summary
          recommendations := recs
          personalized_recommendations := pers
          instagram_captions := caps }
  | _, _, _, _, _, _ => .error .validationError

/-- An HTTP error response, `HTTPException(status_code, detail)`. -/
structure HttpException where
  status_code : Nat
  detail : Pstr

/-- Python truthiness of `EMERGENT_LLM_KEY` (`None` or empty is falsy). -/
def truthyKey : Option Pstr → Bool
  | none => false
  | some k => !k.isEmpty

/-- The observable outcome of one call to the analyze endpoint: the HTTP
result, the documents inserted into `db.movie_analyses`, and the prompts
sent to the generation port. -/
structure EndpointOutcome where
  result : Except HttpException MovieAnalysisResponse
  persisted : List MovieAnalysisResponse
  prompts : List Pstr

/-- The `/api/analyze-movie` endpoint (server.py:336-360). Note that the
source calls `orchestrator.analyze_movie(request.movie_title.strip())`
without forwarding `request.preferences` (server.py:346), so the
orchestrator always runs with `preferences = None`. -/
def analyze_movie_endpoint (request : MovieAnalysisRequest)
    (emergent_llm_key : Option Pstr) (c : Completions) : EndpointOutcome :=
  if (strip request.movie_title).length < 1 then
    { result := .error ⟨400, "Movie title is required".toList⟩,
      persisted := [], prompts := [] }
  else if !truthyKey emergent_llm_key then
    { result := .error ⟨500, "LLM API key not configured".toList⟩,
      persisted := [], prompts := [] }
  else
    match analyze_movie (strip request.movie_title) none c with
    | (.error e, prompts) =>
      { result := .error ⟨500, "Analysis failed: ".toList ++ pyErrStr e⟩,
        persisted := [], prompts := prompts }
    | (.ok draft, prompts) =>
      match mkResponse draft with
      | .error e =>
        { result := .error ⟨500, "Analysis failed: ".toList ++ pyErrStr e⟩,
          persisted := [], prompts := prompts }
      | .ok response =>
        { result := .ok response, persisted := [response], prompts := prompts }

/-! ## Concrete scenarios (used by witnesses and counterexamples) -/

/-- Scenario B preferences: `favoriteGenres` and `favoriteMovies` set. -/
def scenarioB_preferences : UserPreferences :=
  { favorite_genres := ["Action".toList, "Sci-Fi".toList],
    favorite_movies := ["The Matrix".toList] }

/-- Scenario B request: title `"Inception"` with meaningful preferences. -/
def scenarioB_request : MovieAnalysisRequest :=
  { movie_title := "Inception".toList, preferences := some scenarioB_preferences }

/-- Scenario C request: whitespace-only title. -/
def scenarioC_request : MovieAnalysisRequest :=
  { movie_title := "   ".toList }

/-- Well-behaved completions for a concrete pipeline run. -/
def benignCompletions : Completions :=
  { planner := "\x7b\"genre\": \"Sci-Fi\", \"year\": \"2010\", \"type\": \"Movie\"\x7d".toList
    critic := "A thrilling heist film.".toList
    sentiment := "\x7b\"overall\": \"Positive\", \"analysis\": \"Widely loved.\"\x7d".toList
    summary := "A dream within a dream.".toList
    recommendation := "[\x7b\"title\": \"The Matrix\", \"reason\": \"Mind-bending.\"\x7d]".toList
    social := "[\"Cap one\", \"Cap two\", \"Cap three\"]".toList
    personalized := "[\x7b\"title\": \"Tenet\", \"reason\": \"Same director.\"\x7d]".toList }

/-- The endpoint outcome of Scenario B under benign completions. -/
def outcomeB : EndpointOutcome :=
  analyze_movie_endpoint scenarioB_request (some "test-key".toList) benignCompletions

/-- Scenario D planner completion: fenced JSON with a `json` language tag. -/
def scenarioD_planner : Pstr :=
  "```json\n\x7b\"genre\":\"Sci-Fi\",\"year\":\"1999\",\"type\":\"Movie\"\x7d\n```".toList

/-- Completions whose planner output is the Scenario D fenced JSON. -/
def scenarioD_completions : Completions :=
  { benignCompletions with planner := scenarioD_planner }

/-- Completions whose personalized completion is a 6-element JSON array. -/
def c2Completions : Completions :=
  { benignCompletions with personalized :=
      "[\x7b\"title\": \"A\", \"reason\": \"a\"\x7d, \x7b\"title\": \"B\", \"reason\": \"b\"\x7d, \x7b\"title\": \"C\", \"reason\": \"c\"\x7d, \x7b\"title\": \"D\", \"reason\": \"d\"\x7d, \x7b\"title\": \"E\", \"reason\": \"e\"\x7d, \x7b\"title\": \"F\", \"reason\": \"f\"\x7d]".toList }

/-- Completions whose planner returns valid JSON of the wrong shape. -/
def c4Completions : Completions :=
  { benignCompletions with planner := "[]".toList }

/-- Completions whose sentiment JSON has a non-string `analysis` value. -/
def c7Completions : Completions :=
  { benignCompletions with sentiment :=
      "\x7b\"overall\": \"Positive\", \"analysis\": 5\x7d".toList }

/-- Completions whose sentiment JSON lacks both expected keys. -/
def c9Completions : Completions :=
  { benignCompletions with sentiment := "\x7b\"foo\": \"bar\"\x7d".toList }

/-- A draft with arbitrary placeholder contents. -/
def defaultDraft : Draft :=
  { movie_title := [], genre := Json.null, overall_sentiment := Json.null,
    critic_analysis := [], audience_sentiment := Json.null, summary := [],
    recommendations := Json.null, personalized_recommendations := Json.null,
    instagram_captions := Json.null }

/-- Project the draft out of an orchestrator result. -/
def draftOf (r : Except PyErr Draft) : Draft :=
  match r with
  | .ok d => d
  | .error _ => defaultDraft

/-- A response value with arbitrary placeholder contents. -/
def defaultResponse : MovieAnalysisResponse :=
  { movie_title := [], genre := [], overall_sentiment := [], critic_analysis := [],
    audience_sentiment := [], summary := [], recommendations := [],
    personalized_recommendations := [], instagram_captions := [] }

/-- Project the response out of an endpoint result. -/
def respOf (r : Except HttpException MovieAnalysisResponse) : MovieAnalysisResponse :=
  match r with
  | .ok x => x
  | .error _ => defaultResponse

/-- Project the draft/warnings pair out of a validator result. -/
def pairOf (r : Except PyErr (Draft × List Pstr)) : Draft × List Pstr :=
  match r with
  | .ok p => p
  | .error _ => (defaultDraft, [])

/-- Length of a JSON array, 0 on any other value. -/
def jsonArrLen : Json → Nat
  | .arr l => l.length
  | _ => 0

/-- The draft the orchestrator validates in the C2 counterexample run. -/
def c2draft : Draft :=
  draftOf (analyze_movie "Inception".toList (some scenarioB_preferences) c2Completions).1

/-- The validated draft of the C9 witness run. -/
def c9draft : Draft :=
  draftOf (analyze_movie "The Matrix".toList none c9Completions).1

/-- A draft whose `audience_sentiment` is not a string (reachable via a
sentiment completion whose `analysis` value is a JSON number). -/
def c7Draft : Draft :=
  { defaultDraft with audience_sentiment := Json.num ['5'] }

/-- A draft exercising the validator coercions: a bare-string
`recommendations` (Scenario E), an over-long caption list, and six
personalized recommendations. -/
def c2wDraft : Draft :=
  { defaultDraft with
    audience_sentiment := Json.str "calm seas".toList,
    recommendations := Json.str "oops".toList,
    instagram_captions := Json.arr (List.replicate 4 (Json.str "cap".toList)),
    personalized_recommendations := Json.arr (List.replicate 6 Json.null) }

/-! ## Helper lemmas -/

lemma splitTicks_split (t : Pstr) (r : Pstr) (ht : t.all (fun c => c ≠ '`')) :
    splitTicks (t ++ (fence ++ r)) = t :: splitTicks r := by
  induction t with
  | nil =>
    show splitTicks (fence ++ r) = [] :: splitTicks r
    rw [splitTicks.eq_def]
    simp [fence, List.isPrefixOf]
  | cons c t' ih =>
    simp only [List.all_cons, Bool.and_eq_true, decide_eq_true_eq] at ht
    obtain ⟨hc, ht'⟩ := ht
    have ih' := ih (by simpa using ht')
    rw [List.cons_append, splitTicks.eq_2]
    have hpre : fence.isPrefixOf (c :: (t' ++ (fence ++ r))) = false := by
      simp [fence, List.isPrefixOf]
      intro h; exact absurd h.symm hc
    rw [hpre]
    simp only [Bool.false_eq_true, if_false]
    rw [ih']



lemma strip_no_ws (l : Pstr) (h1 : l.dropWhile isPyWs = l)
    (h2 : l.reverse.dropWhile isPyWs = l.reverse) : strip l = l := by
  simp [strip, h1, h2]

lemma strip_fenced (t : Pstr) : strip (fence ++ t ++ fence) = fence ++ t ++ fence := by
  apply strip_no_ws
  · show List.dropWhile isPyWs ('`' :: ('`' :: '`' :: t ++ fence)) = _
    rw [List.dropWhile_cons]
    simp only [isPyWs]
    norm_num
    rfl
  · rw [List.reverse_append, List.reverse_append]
    show List.dropWhile isPyWs ('`' :: ('`' :: '`' :: (t.reverse ++ fence.reverse))) = _
    rw [List.dropWhile_cons]
    simp [isPyWs, fence]

lemma loads_head_not_tick (l : Pstr) (j : Json) (h : loads l = some j) :
    fence.isPrefixOf l = false := by
  cases l with
  | nil => rfl
  | cons c rest =>
    by_cases hc : c = '`'
    · subst hc
      exfalso
      have : loads ('`' :: rest) = none := by
        show (match parseValue (('`' :: rest).length + 1) ('`' :: rest) with
          | some (j, r) => if skipWs r = [] then some j else none
          | none => none) = none
        rw [List.length_cons]
        rw [parseValue]
        simp [skipWs, List.dropWhile_cons, isJsonWs, parseNumTok]
      rw [this] at h
      cases h
    · simp [fence, List.isPrefixOf]
      intro h'
      exact absurd h'.symm hc



lemma isPrefixOf_append_self (l r : Pstr) : l.isPrefixOf (l ++ r) = true := by
  rw [List.isPrefixOf_iff_prefix]
  exact List.prefix_append l r

lemma cleanCompletion_fenced (s : Pstr) (hs : s.all (fun c => c ≠ '`')) :
    cleanCompletion (fence ++ (jsonTag ++ s) ++ fence) = s := by
  simp only [cleanCompletion]
  rw [strip_fenced]
  rw [List.append_assoc]
  rw [isPrefixOf_append_self]
  simp only [if_true]
  have h1 : splitTicks (fence ++ ((jsonTag ++ s) ++ fence)) =
      [] :: splitTicks ((jsonTag ++ s) ++ fence) := by
    have := splitTicks_split [] ((jsonTag ++ s) ++ fence) (by simp)
    simpa using this
  have h2 : splitTicks ((jsonTag ++ s) ++ fence) = (jsonTag ++ s) :: splitTicks [] := by
    have := splitTicks_split (jsonTag ++ s) [] (by
      simp only [List.all_append, Bool.and_eq_true]
      constructor
      · rfl
      · simpa using hs)
    simpa using this
  rw [h1, h2]
  simp only [List.getElem?_cons_succ, List.getElem?_cons_zero, Option.getD_some]
  show (if jsonTag.isPrefixOf (jsonTag ++ s) = true then (jsonTag ++ s).drop 4 else jsonTag ++ s) = s
  rw [isPrefixOf_append_self]
  simp only [if_true]
  show (jsonTag ++ s).drop jsonTag.length = s
  exact List.drop_left jsonTag s

lemma cleanCompletion_unfenced (s : Pstr) (j : Json) (h : loads (strip s) = some j) :
    cleanCompletion s = strip s := by
  simp only [cleanCompletion]
  rw [loads_head_not_tick _ _ h]
  simp



lemma validator_agent_eq (d : Draft) (s : Pstr) (h : d.audience_sentiment = .str s) :
    validator_agent d =
      .ok ({ d with recommendations := capList d.recommendations 5,
                    instagram_captions := capList d.instagram_captions 3 },
           spoilerHits (lowerStr d.critic_analysis) ++ spoilerHits (lowerStr d.summary) ++
             spoilerHits (lowerStr s)) := by
  unfold validator_agent
  rw [h]
  rfl

lemma capList_arr (v : Json) (n : Nat) : ∃ l, capList v n = .arr l ∧ l.length ≤ n := by
  cases v with
  | arr l => exact ⟨l.take n, rfl, List.length_take_le n l⟩
  | null => exact ⟨[], rfl, by simp⟩
  | bool b => exact ⟨[], rfl, by simp⟩
  | num t => exact ⟨[], rfl, by simp⟩
  | str s => exact ⟨[], rfl, by simp⟩
  | obj f => exact ⟨[], rfl, by simp⟩

lemma validator_frame {d d' : Draft} {ws : List Pstr}
    (h : validator_agent d = .ok (d', ws)) :
    d'.movie_title = d.movie_title ∧ d'.genre = d.genre ∧
    d'.overall_sentiment = d.overall_sentiment ∧
    d'.critic_analysis = d.critic_analysis ∧
    d'.audience_sentiment = d.audience_sentiment ∧
    d'.summary = d.summary ∧
    d'.personalized_recommendations = d.personalized_recommendations ∧
    d'.recommendations = capList d.recommendations 5 ∧
    d'.instagram_captions = capList d.instagram_captions 3 := by
  unfold validator_agent at h
  cases hv : pyLower d.audience_sentiment with
  | error e => rw [hv] at h; cases h
  | ok a =>
    rw [hv] at h
    simp only [Except.ok.injEq, Prod.mk.injEq] at h
    obtain ⟨hd, _⟩ := h
    subst hd
    simp



lemma personalized_if (t : Pstr) (g : Json) (prefs : Option UserPreferences)
    (comp : Pstr) :
    (if prefs.isSome then personalized_recommendation_agent t g prefs comp
     else (Json.arr [], [])) =
    personalized_recommendation_agent t g prefs comp := by
  cases prefs with
  | none => simp [personalized_recommendation_agent]
  | some p => simp

lemma analyze_movie_run (t : Pstr) (prefs : Option UserPreferences) (c : Completions)
    (g : Json)
    (hg : dictGet (extractJson c.planner plannerFallback) "genre".toList (.str "Drama".toList) = .ok g) :
    (analyze_movie t prefs c).2 =
      [plannerPrompt t, criticPrompt t g, sentimentPrompt t, summaryPrompt t g,
       recommendationPrompt t g, socialPrompt t g] ++
        (personalized_recommendation_agent t g prefs c.personalized).2 ∧
    ∀ d, (analyze_movie t prefs c).1 = .ok d → d.genre = g ∧ d.movie_title = t := by
  unfold analyze_movie
  simp only [planner_agent, critic_agent, sentiment_agent, summary_agent,
    recommendation_agent, social_media_agent]
  rw [hg]
  simp only []
  rw [personalized_if]
  constructor
  · simp
  · intro d hd
    split at hd
    · cases hd
    · split at hd
      · cases hd
      · split at hd
        · cases hd
        · next vd ws heq =>
            cases hd
            have hfr := validator_frame heq
            exact ⟨hfr.2.1, hfr.1⟩

lemma containsSub_append_mid (pre n post : Pstr) :
    containsSub n (pre ++ (n ++ post)) = true := by
  induction pre with
  | nil =>
    cases n with
    | nil =>
      cases post with
      | nil => rfl
      | cons c r => simp [containsSub, List.isPrefixOf]
    | cons m ms =>
      show containsSub (m :: ms) (m :: (ms ++ post)) = true
      unfold containsSub
      rw [show m :: (ms ++ post) = (m :: ms) ++ post from rfl]
      rw [isPrefixOf_append_self]
      simp
  | cons c pr ih =>
    show containsSub n (c :: (pr ++ (n ++ post))) = true
    unfold containsSub
    rw [ih]
    simp

lemma mkResponse_movie_title {d : Draft} {r : MovieAnalysisResponse}
    (h : mkResponse d = .ok r) : r.movie_title = d.movie_title := by
  unfold mkResponse at h
  split at h
  · cases h; rfl
  · cases h

lemma analyze_movie_planner_err (t : Pstr) (prefs : Option UserPreferences)
    (c : Completions) (e : PyErr)
    (hg : dictGet (extractJson c.planner plannerFallback) "genre".toList
        (.str "Drama".toList) = .error e) :
    analyze_movie t prefs c = (.error e, [plannerPrompt t]) := by
  unfold analyze_movie
  simp only [planner_agent]
  rw [hg]

lemma analyze_movie_ok_shape (t : Pstr) (prefs : Option UserPreferences)
    (c : Completions) (d : Draft) (h : (analyze_movie t prefs c).1 = .ok d) :
    ∃ g ov an,
      dictGet (extractJson c.planner plannerFallback) "genre".toList
        (.str "Drama".toList) = .ok g ∧
      dictGet (extractJson c.sentiment sentimentFallback) "overall".toList
        (.str "Mixed".toList) = .ok ov ∧
      dictGet (extractJson c.sentiment sentimentFallback) "analysis".toList
        (.str []) = .ok an ∧
      d.movie_title = t ∧ d.genre = g ∧ d.overall_sentiment = ov ∧
      d.audience_sentiment = an ∧
      d.critic_analysis = c.critic ∧ d.summary = c.summary ∧
      d.personalized_recommendations =
        (personalized_recommendation_agent t g prefs c.personalized).1 ∧
      d.recommendations = capList (extractJson c.recommendation recommendationFallback) 5 ∧
      d.instagram_captions = capList (extractJson c.social (socialFallback t)) 3 := by
  unfold analyze_movie at h
  simp only [planner_agent, critic_agent, sentiment_agent, summary_agent,
    recommendation_agent, social_media_agent] at h
  split at h
  · cases h
  · next g hg =>
    rw [personalized_if] at h
    split at h
    · cases h
    · next ov hov =>
      split at h
      · cases h
      · next an han =>
        split at h
        · cases h
        · next vd ws hval =>
          cases h
          have hfr := validator_frame hval
          exact ⟨g, ov, an, hg, hov, han, hfr.1, hfr.2.1, hfr.2.2.1,
            hfr.2.2.2.2.1, hfr.2.2.2.1, hfr.2.2.2.2.2.1,
            hfr.2.2.2.2.2.2.1, hfr.2.2.2.2.2.2.2.1, hfr.2.2.2.2.2.2.2.2⟩

lemma containsSub_of_shape {n s : Pstr} (pre post : Pstr) (h : s = pre ++ n ++ post) :
    containsSub n s = true := by
  subst h
  rw [List.append_assoc]
  exact containsSub_append_mid pre n post

lemma personalized_prompts (t : Pstr) (g : Json) (prefs : Option UserPreferences)
    (comp : Pstr) :
    ∀ p ∈ (personalized_recommendation_agent t g prefs comp).2,
      ∃ pp, prefs = some pp ∧ p = personalizedPrompt t g pp := by
  cases prefs with
  | none => simp [personalized_recommendation_agent]
  | some pp =>
    intro p hp
    simp only [personalized_recommendation_agent] at hp
    split at hp
    · simp at hp
    · simp at hp
      exact ⟨pp, rfl, hp⟩

lemma analyze_movie_prompts_contain_title (t : Pstr) (prefs : Option UserPreferences)
    (c : Completions) :
    ∀ p ∈ (analyze_movie t prefs c).2, containsSub t p = true := by
  cases hg : dictGet (extractJson c.planner plannerFallback) "genre".toList
      (.str "Drama".toList) with
  | error e =>
    rw [analyze_movie_planner_err t prefs c e hg]
    intro p hp
    simp at hp
    subst hp
    exact containsSub_of_shape "Analyze this movie/series: '".toList
      "'. Provide the genre, approximate year, and whether it's a Movie or TV Series.".toList
      (by simp [plannerPrompt])
  | ok g =>
    rw [(analyze_movie_run t prefs c g hg).1]
    intro p hp
    rw [List.mem_append] at hp
    rcases hp with hp | hp
    · simp only [List.mem_cons, List.not_mem_nil, or_false] at hp
      rcases hp with h | h | h | h | h | h
      · subst h
        exact containsSub_of_shape "Analyze this movie/series: '".toList
          "'. Provide the genre, approximate year, and whether it's a Movie or TV Series.".toList
          (by simp [plannerPrompt])
      · subst h
        exact containsSub_of_shape "Provide a professional critique of '".toList
          ("' (".toList ++ pyStr g ++ "). Focus on technical and artistic merits without spoilers.".toList)
          (by simp [criticPrompt])
      · subst h
        exact containsSub_of_shape "Analyze the general audience sentiment for '".toList
          "'. What do audiences typically praise or criticize?".toList
          (by simp [sentimentPrompt])
      · subst h
        exact containsSub_of_shape "Write a spoiler-free summary for '".toList
          ("' (".toList ++ pyStr g ++ ") in under 120 words.".toList)
          (by simp [summaryPrompt])
      · subst h
        exact containsSub_of_shape "Recommend 5 movies/series similar to '".toList
          ("' (".toList ++ pyStr g ++ "). Consider genre, tone, themes, and style.".toList)
          (by simp [recommendationPrompt])
      · subst h
        exact containsSub_of_shape "Create 3 Instagram captions for a post about '".toList
          ("' (".toList ++ pyStr g ++ "). Make them engaging and shareable.".toList)
          (by simp [socialPrompt])
    · obtain ⟨pp, -, hpp⟩ := personalized_prompts t g prefs c.personalized p hp
      subst hpp
      exact containsSub_of_shape "Based on the movie '".toList
        ("' (".toList ++ pyStr g ++ ") and the user's preferences: ".toList ++
          joinSep ". ".toList (prefContext pp) ++
          ". Recommend 5 movies/series that would perfectly match their taste and current mood.".toList)
        (by simp [personalizedPrompt])

/-! ## Claim theorems -/


/-- C1: the spec requires Scenario B (meaningful preferences) to yield
non-empty `personalizedRecommendations`, and the repository's own test
(`backend_test.py:test_personalized_recommendations`) fails when they are
empty; but the endpoint (server.py:346) never forwards
`request.preferences`, so the accepted Scenario B request produces an empty
`personalized_recommendations` and the personalization agent makes zero
generation-port calls (only the six other prompts are sent), even though
the agent itself, given these preferences and this completion, would return
a non-empty list with one call. -/
theorem c1_preferences_dropped :
    Except.map (fun r => r.personalized_recommendations) outcomeB.result =
      Except.ok ([] : List Recommendation) ∧
    outcomeB.prompts =
      [plannerPrompt "Inception".toList,
       criticPrompt "Inception".toList (Json.str "Sci-Fi".toList),
       sentimentPrompt "Inception".toList,
       summaryPrompt "Inception".toList (Json.str "Sci-Fi".toList),
       recommendationPrompt "Inception".toList (Json.str "Sci-Fi".toList),
       socialPrompt "Inception".toList (Json.str "Sci-Fi".toList)] ∧
    (personalized_recommendation_agent "Inception".toList (Json.str "Sci-Fi".toList)
        scenarioB_request.preferences benignCompletions.personalized) =
      (Json.arr [Json.obj [("title".toList, Json.str "Tenet".toList),
                           ("reason".toList, Json.str "Same director.".toList)]],
       [personalizedPrompt "Inception".toList (Json.str "Sci-Fi".toList)
          scenarioB_preferences]) :=
  ⟨rfl, rfl, rfl⟩

set_option maxRecDepth 10000 in
/-- C2 counterexample: a pipeline run whose personalization completion is a
6-element JSON array ends, after validation, with 6 entries in
`personalized_recommendations` — the validator does not cap that list, so
`len(personalizedRecommendations) ≤ 5` fails. -/
theorem c2_counterexample :
    (analyze_movie "Inception".toList (some scenarioB_preferences) c2Completions).1 =
      Except.ok c2draft ∧
    jsonArrLen c2draft.personalized_recommendations = 6 ∧
    ¬ jsonArrLen c2draft.personalized_recommendations ≤ 5 := by
  refine ⟨rfl, rfl, ?_⟩
  rw [show jsonArrLen c2draft.personalized_recommendations = 6 from rfl]
  decide

/-- C2 (amended): whenever the validator returns, `recommendations` is a
list of at most 5 entries and `instagram_captions` a list of at most 3; a
longer list is truncated to the first cap entries and a bare-string value
(Scenario E) is replaced with the empty list; but
`personalized_recommendations` passes through unchanged, not capped. -/
theorem c2_validator_bounds (d d' : Draft) (ws : List Pstr)
    (h : validator_agent d = Except.ok (d', ws)) :
    (∃ l, d'.recommendations = Json.arr l ∧ l.length ≤ 5) ∧
    (∃ l, d'.instagram_captions = Json.arr l ∧ l.length ≤ 3) ∧
    (∀ l, d.recommendations = Json.arr l → d'.recommendations = Json.arr (l.take 5)) ∧
    (∀ l, d.instagram_captions = Json.arr l → d'.instagram_captions = Json.arr (l.take 3)) ∧
    (∀ s, d.recommendations = Json.str s → d'.recommendations = Json.arr []) ∧
    (∀ s, d.instagram_captions = Json.str s → d'.instagram_captions = Json.arr []) ∧
    d'.personalized_recommendations = d.personalized_recommendations := by
  have hfr := validator_frame h
  refine ⟨?_, ?_, ?_, ?_, ?_, ?_, hfr.2.2.2.2.2.2.1⟩
  · rw [hfr.2.2.2.2.2.2.2.1]; exact capList_arr _ 5
  · rw [hfr.2.2.2.2.2.2.2.2]; exact capList_arr _ 3
  · intro l hl; rw [hfr.2.2.2.2.2.2.2.1, hl]; rfl
  · intro l hl; rw [hfr.2.2.2.2.2.2.2.2, hl]; rfl
  · intro s hs; rw [hfr.2.2.2.2.2.2.2.1, hs]; rfl
  · intro s hs; rw [hfr.2.2.2.2.2.2.2.2, hs]; rfl

/-- Witness for C2: on a concrete draft with a bare-string
`recommendations` and a 4-caption list, the validator yields the empty
recommendation list and a 3-caption list. -/
theorem c2_validator_bounds_witness :
    (pairOf (validator_agent c2wDraft)).1.recommendations = Json.arr [] ∧
    (pairOf (validator_agent c2wDraft)).1.instagram_captions =
      Json.arr (List.replicate 3 (Json.str "cap".toList)) := by
  have h := c2_validator_bounds c2wDraft (pairOf (validator_agent c2wDraft)).1
    (pairOf (validator_agent c2wDraft)).2 (by rfl)
  refine ⟨h.2.2.2.2.1 "oops".toList rfl, ?_⟩
  have := h.2.2.2.1 (List.replicate 4 (Json.str "cap".toList)) rfl
  rw [this]
  rfl



/-- C3: (a) for a planner completion that is well-formed JSON (an object
with a `genre` field, modulo surrounding whitespace), the genre threaded
into every later agent prompt and into the result equals that field;
(b) the same holds when the JSON is wrapped in a code fence with a leading
`json` language tag (Scenario D shape, backtick-free payload); (c) for a
malformed/non-JSON completion the threaded genre is `"Drama"`. -/
theorem c3_genre_threading :
    (∀ (t : Pstr) (prefs : Option UserPreferences) (c : Completions)
       (o : List (Pstr × Json)) (g : Json),
       loads (strip c.planner) = some (Json.obj o) →
       lookupLast o "genre".toList = some g →
       ((analyze_movie t prefs c).2 =
          [plannerPrompt t, criticPrompt t g, sentimentPrompt t, summaryPrompt t g,
           recommendationPrompt t g, socialPrompt t g] ++
            (personalized_recommendation_agent t g prefs c.personalized).2 ∧
        ∀ d, (analyze_movie t prefs c).1 = .ok d → d.genre = g)) ∧
    (∀ (t : Pstr) (prefs : Option UserPreferences) (c : Completions)
       (s : Pstr) (o : List (Pstr × Json)) (g : Json),
       c.planner = fence ++ (jsonTag ++ s) ++ fence →
       s.all (fun ch => ch ≠ '`') →
       loads s = some (Json.obj o) →
       lookupLast o "genre".toList = some g →
       ((analyze_movie t prefs c).2 =
          [plannerPrompt t, criticPrompt t g, sentimentPrompt t, summaryPrompt t g,
           recommendationPrompt t g, socialPrompt t g] ++
            (personalized_recommendation_agent t g prefs c.personalized).2 ∧
        ∀ d, (analyze_movie t prefs c).1 = .ok d → d.genre = g)) ∧
    (∀ (t : Pstr) (prefs : Option UserPreferences) (c : Completions),
       loads (cleanCompletion c.planner) = none →
       ((analyze_movie t prefs c).2 =
          [plannerPrompt t, criticPrompt t (Json.str "Drama".toList), sentimentPrompt t,
           summaryPrompt t (Json.str "Drama".toList),
           recommendationPrompt t (Json.str "Drama".toList),
           socialPrompt t (Json.str "Drama".toList)] ++
            (personalized_recommendation_agent t (Json.str "Drama".toList) prefs
              c.personalized).2 ∧
        ∀ d, (analyze_movie t prefs c).1 = .ok d →
          d.genre = Json.str "Drama".toList)) := by
  refine ⟨?_, ?_, ?_⟩
  · intro t prefs c o g hload hlk
    have hex : extractJson c.planner plannerFallback = Json.obj o := by
      unfold extractJson
      rw [cleanCompletion_unfenced _ _ hload, hload]
    have hg : dictGet (extractJson c.planner plannerFallback) "genre".toList
        (.str "Drama".toList) = .ok g := by
      rw [hex]
      show Except.ok ((lookupLast o "genre".toList).getD (Json.str "Drama".toList)) =
        Except.ok g
      rw [hlk]
      rfl
    have hr := analyze_movie_run t prefs c g hg
    exact ⟨hr.1, fun d hd => ((hr.2 d hd).1)⟩
  · intro t prefs c s o g hplan hticks hload hlk
    have hcc : cleanCompletion c.planner = s := by
      rw [hplan]
      exact cleanCompletion_fenced s hticks
    have hex : extractJson c.planner plannerFallback = Json.obj o := by
      unfold extractJson
      rw [hcc, hload]
    have hg : dictGet (extractJson c.planner plannerFallback) "genre".toList
        (.str "Drama".toList) = .ok g := by
      rw [hex]
      show Except.ok ((lookupLast o "genre".toList).getD (Json.str "Drama".toList)) =
        Except.ok g
      rw [hlk]
      rfl
    have hr := analyze_movie_run t prefs c g hg
    exact ⟨hr.1, fun d hd => ((hr.2 d hd).1)⟩
  · intro t prefs c hnone
    have hex : extractJson c.planner plannerFallback = plannerFallback := by
      unfold extractJson
      rw [hnone]
    have hg : dictGet (extractJson c.planner plannerFallback) "genre".toList
        (.str "Drama".toList) = .ok (Json.str "Drama".toList) := by
      rw [hex]
      rfl
    have hr := analyze_movie_run t prefs c (Json.str "Drama".toList) hg
    exact ⟨hr.1, fun d hd => ((hr.2 d hd).1)⟩

/-- Witness for C3 at Scenario D: the fenced `{"genre":"Sci-Fi",...}`
planner completion threads `"Sci-Fi"` into all five later prompts. -/
theorem c3_genre_threading_witness :
    (analyze_movie "Inception".toList none scenarioD_completions).2 =
      [plannerPrompt "Inception".toList,
       criticPrompt "Inception".toList (Json.str "Sci-Fi".toList),
       sentimentPrompt "Inception".toList,
       summaryPrompt "Inception".toList (Json.str "Sci-Fi".toList),
       recommendationPrompt "Inception".toList (Json.str "Sci-Fi".toList),
       socialPrompt "Inception".toList (Json.str "Sci-Fi".toList)] ++
        (personalized_recommendation_agent "Inception".toList (Json.str "Sci-Fi".toList)
          none scenarioD_completions.personalized).2 :=
  (c3_genre_threading.2.1 "Inception".toList none scenarioD_completions
    "\n\x7b\"genre\":\"Sci-Fi\",\"year\":\"1999\",\"type\":\"Movie\"\x7d\n".toList
    [("genre".toList, Json.str "Sci-Fi".toList),
     ("year".toList, Json.str "1999".toList),
     ("type".toList, Json.str "Movie".toList)]
    (Json.str "Sci-Fi".toList) (by rfl) (by rfl) (by rfl) (by rfl)).1

/-- C4 counterexample: the planner completion `"[]"` is valid JSON of the
wrong shape; the extraction step returns it as-is instead of the documented
fallback, and the subsequent `.get` aborts the pipeline with an
`AttributeError`. -/
theorem c4_counterexample :
    (planner_agent "The Matrix".toList "[]".toList).1 = Json.arr [] ∧
    Json.arr [] ≠ plannerFallback ∧
    analyze_movie "The Matrix".toList none c4Completions =
      (Except.error PyErr.attributeError, [plannerPrompt "The Matrix".toList]) := by
  refine ⟨rfl, ?_, rfl⟩
  intro h
  exact Json.noConfusion h

/-- C4 (amended): on any JSON parse error the extraction returns the
documented fallback unchanged (and, being a total function of the
completion, never raises); but there is no shape check — successfully
parsed JSON of any shape is returned as-is. -/
theorem c4_extraction_fallback (raw : Pstr) (fb : Json) :
    (loads (cleanCompletion raw) = none → extractJson raw fb = fb) ∧
    (∀ j, loads (cleanCompletion raw) = some j → extractJson raw fb = j) := by
  constructor
  · intro h
    unfold extractJson
    rw [h]
  · intro j h
    unfold extractJson
    rw [h]

/-- Witness for C4: the non-JSON completion `"not json"` yields the planner
fallback. -/
theorem c4_extraction_fallback_witness :
    extractJson "not json".toList plannerFallback = plannerFallback :=
  (c4_extraction_fallback "not json".toList plannerFallback).1 rfl



/-- C5: an empty-after-strip title is rejected with the distinct 400
"Movie title is required" error before any orchestration — zero
generation-port calls and nothing persisted; a missing/empty provider key
is likewise rejected up front (500, key message, zero calls); whereas every
mid-pipeline failure surfaces as a 500 whose detail starts with
"Analysis failed: ". -/
theorem c5_invalid_input_rejected (req : MovieAnalysisRequest) (key : Option Pstr)
    (c : Completions) :
    (strip req.movie_title = [] →
      analyze_movie_endpoint req key c =
        { result := .error ⟨400, "Movie title is required".toList⟩,
          persisted := [], prompts := [] }) ∧
    (strip req.movie_title ≠ [] → truthyKey key = false →
      analyze_movie_endpoint req key c =
        { result := .error ⟨500, "LLM API key not configured".toList⟩,
          persisted := [], prompts := [] }) ∧
    (strip req.movie_title ≠ [] → truthyKey key = true →
      ∀ e, (analyze_movie_endpoint req key c).result = .error e →
        e.status_code = 500 ∧
        ∃ pe : PyErr, e.detail = "Analysis failed: ".toList ++ pyErrStr pe) := by
  refine ⟨?_, ?_, ?_⟩
  · intro h
    unfold analyze_movie_endpoint
    rw [if_pos (by rw [h]; simp)]
  · intro h hk
    have h1 : ¬ ((strip req.movie_title).length < 1) := by
      have := List.length_pos.mpr h
      omega
    unfold analyze_movie_endpoint
    rw [if_neg h1, hk]
    rfl
  · intro h hk e he
    have h1 : ¬ ((strip req.movie_title).length < 1) := by
      have := List.length_pos.mpr h
      omega
    unfold analyze_movie_endpoint at he
    rw [if_neg h1, hk] at he
    simp only [Bool.not_true, Bool.false_eq_true, if_false] at he
    rcases har : analyze_movie (strip req.movie_title) none c with ⟨res, prompts⟩
    rw [har] at he
    cases res with
    | error pe =>
      simp only [Except.error.injEq] at he
      subst he
      exact ⟨rfl, pe, rfl⟩
    | ok draft =>
      simp only [] at he
      rcases hm : mkResponse draft with pe | resp
      · rw [hm] at he
        simp only [Except.error.injEq] at he
        subst he
        exact ⟨rfl, pe, rfl⟩
      · rw [hm] at he
        cases he

/-- C6: every request is all-or-nothing — an error outcome persists
nothing, and a success outcome persists exactly the returned response
(one insert), which was built by pydantic validation of a draft the
orchestrator completed and validated. -/
theorem c6_all_or_nothing (req : MovieAnalysisRequest) (key : Option Pstr)
    (c : Completions) :
    (∀ e, (analyze_movie_endpoint req key c).result = .error e →
       (analyze_movie_endpoint req key c).persisted = []) ∧
    (∀ r, (analyze_movie_endpoint req key c).result = .ok r →
       (analyze_movie_endpoint req key c).persisted = [r] ∧
       ∃ d, (analyze_movie (strip req.movie_title) none c).1 = .ok d ∧
            mkResponse d = .ok r) := by
  unfold analyze_movie_endpoint
  by_cases h1 : (strip req.movie_title).length < 1
  · rw [if_pos h1]
    exact ⟨fun e _ => rfl, fun r hr => by cases hr⟩
  · rw [if_neg h1]
    by_cases h2 : (!truthyKey key) = true
    · rw [if_pos h2]
      exact ⟨fun e _ => rfl, fun r hr => by cases hr⟩
    · rw [if_neg h2]
      rcases har : analyze_movie (strip req.movie_title) none c with ⟨res, prompts⟩
      cases res with
      | error e =>
        exact ⟨fun e' _ => rfl, fun r hr => by cases hr⟩
      | ok draft =>
        simp only []
        rcases hm : mkResponse draft with pe | resp
        · exact ⟨fun e' _ => rfl, fun r hr => by cases hr⟩
        · constructor
          · intro e' he'
            cases he'
          · intro r hr
            cases hr
            exact ⟨rfl, draft, rfl, hm⟩

/-- Witness for C5 at Scenario C: the whitespace-only title is rejected
with the 400 error, zero prompts, nothing persisted. -/
theorem c5_invalid_input_rejected_witness :
    analyze_movie_endpoint scenarioC_request (some "test-key".toList) benignCompletions =
      { result := .error ⟨400, "Movie title is required".toList⟩,
        persisted := [], prompts := [] } :=
  (c5_invalid_input_rejected scenarioC_request (some "test-key".toList)
    benignCompletions).1 (by rfl)

/-- Witness for C6 on the Scenario B run: the success response is persisted
exactly once. -/
theorem c6_all_or_nothing_witness :
    (analyze_movie_endpoint scenarioB_request (some "test-key".toList)
        benignCompletions).persisted = [respOf outcomeB.result] :=
  ((c6_all_or_nothing scenarioB_request (some "test-key".toList)
      benignCompletions).2 (respOf outcomeB.result) (by rfl)).1



/-- C7 counterexample: the validator can fail — on a draft whose
`audience_sentiment` is a JSON number (reachable when the sentiment JSON's
`analysis` value is a number, as completion `{"overall":"Positive",
"analysis": 5}` shows), `.lower()` raises `AttributeError` and the whole
pipeline run errors. -/
theorem c7_counterexample :
    validator_agent c7Draft = Except.error PyErr.attributeError ∧
    (analyze_movie "The Matrix".toList none c7Completions).1 =
      Except.error PyErr.attributeError :=
  ⟨rfl, rfl⟩

/-- C7 (amended): provided `audience_sentiment` is a string (which
`.lower()` requires), the validator succeeds; every field other than
`recommendations` and `instagram_captions` — in particular the three
scanned text fields — is returned unchanged, and each emitted warning is
one of the fixed spoiler words; the validator makes no generation-port
call (it takes no completion and emits no prompt). -/
theorem c7_validator_scan_frame (d : Draft) (s : Pstr)
    (h : d.audience_sentiment = Json.str s) :
    ∃ d' ws, validator_agent d = .ok (d', ws) ∧
      d'.movie_title = d.movie_title ∧ d'.genre = d.genre ∧
      d'.overall_sentiment = d.overall_sentiment ∧
      d'.critic_analysis = d.critic_analysis ∧
      d'.audience_sentiment = d.audience_sentiment ∧
      d'.summary = d.summary ∧
      d'.personalized_recommendations = d.personalized_recommendations ∧
      ∀ w ∈ ws, w ∈ spoiler_words := by
  refine ⟨_, _, validator_agent_eq d s h, rfl, rfl, rfl, rfl, rfl, rfl, rfl, ?_⟩
  intro w hw
  rw [List.mem_append, List.mem_append] at hw
  unfold spoilerHits at hw
  rcases hw with (hw | hw) | hw <;> exact (List.mem_filter.mp hw).1

/-- Witness for C7: on a concrete draft the validator succeeds and returns
the summary unchanged. -/
theorem c7_validator_scan_frame_witness :
    (pairOf (validator_agent c2wDraft)).1.summary = c2wDraft.summary := by
  obtain ⟨d', ws, h1, hfr⟩ := c7_validator_scan_frame c2wDraft "calm seas".toList rfl
  rw [show pairOf (validator_agent c2wDraft) = (d', ws) by rw [h1]; rfl]
  exact hfr.2.2.2.2.2.1

/-- C8: when an agent completion fails to parse as JSON, the Recommendation
agent returns exactly the one placeholder recommendation with its fixed
title and reason, and the Social agent returns exactly 3 deterministic
template captions, each containing the movie title as a substring. -/
theorem c8_parse_failure_fallbacks (t : Pstr) (g : Json) (s : Pstr)
    (h : loads (cleanCompletion s) = none) :
    (recommendation_agent t g s).1 =
      Json.arr [Json.obj [("title".toList, Json.str "Similar Movie".toList),
                          ("reason".toList,
                           Json.str "Based on similar themes and genre.".toList)]] ∧
    (social_media_agent t g s).1 =
      Json.arr [Json.str ("Just watched ".toList ++ t ++ "! 🎬✨ #MovieNight #Cinema".toList),
                Json.str (t ++ " hits different 🔥 #MustWatch #Film".toList),
                Json.str ("This one's a gem 💎 ".toList ++ t ++ " #Movies #Recommended".toList)] ∧
    containsSub t ("Just watched ".toList ++ t ++ "! 🎬✨ #MovieNight #Cinema".toList) = true ∧
    containsSub t (t ++ " hits different 🔥 #MustWatch #Film".toList) = true ∧
    containsSub t ("This one's a gem 💎 ".toList ++ t ++ " #Movies #Recommended".toList) = true := by
  refine ⟨?_, ?_, ?_, ?_, ?_⟩
  · show extractJson s recommendationFallback = _
    unfold extractJson
    rw [h]
    rfl
  · show extractJson s (socialFallback t) = _
    unfold extractJson
    rw [h]
    rfl
  · exact containsSub_of_shape "Just watched ".toList "! 🎬✨ #MovieNight #Cinema".toList rfl
  · exact containsSub_of_shape [] " hits different 🔥 #MustWatch #Film".toList rfl
  · exact containsSub_of_shape "This one's a gem 💎 ".toList " #Movies #Recommended".toList rfl

/-- Witness for C8: the non-JSON completion `"not json"` triggers both
fallbacks for title "The Matrix". -/
theorem c8_parse_failure_fallbacks_witness :
    (recommendation_agent "The Matrix".toList (Json.str "Sci-Fi".toList)
        "not json".toList).1 =
      Json.arr [Json.obj [("title".toList, Json.str "Similar Movie".toList),
                          ("reason".toList,
                           Json.str "Based on similar themes and genre.".toList)]] :=
  (c8_parse_failure_fallbacks "The Matrix".toList (Json.str "Sci-Fi".toList)
    "not json".toList rfl).1



/-- C9: when the sentiment completion parses as a JSON object lacking the
`overall` key, the assembled result's `overall_sentiment` defaults to
`"Mixed"`; when it lacks the `analysis` key, `audience_sentiment` defaults
to the empty string (not the generic sentence); the generic sentence
"Audience reception varies based on individual preferences." is used
exactly when the whole completion fails to parse as JSON. -/
theorem c9_sentiment_defaults :
    (∀ (t : Pstr) (prefs : Option UserPreferences) (c : Completions)
       (o : List (Pstr × Json)) (d : Draft),
       loads (cleanCompletion c.sentiment) = some (Json.obj o) →
       lookupLast o "overall".toList = none →
       (analyze_movie t prefs c).1 = .ok d →
       d.overall_sentiment = Json.str "Mixed".toList) ∧
    (∀ (t : Pstr) (prefs : Option UserPreferences) (c : Completions)
       (o : List (Pstr × Json)) (d : Draft),
       loads (cleanCompletion c.sentiment) = some (Json.obj o) →
       lookupLast o "analysis".toList = none →
       (analyze_movie t prefs c).1 = .ok d →
       d.audience_sentiment = Json.str [] ∧
       d.audience_sentiment ≠
         Json.str "Audience reception varies based on individual preferences.".toList) ∧
    (∀ (t : Pstr) (prefs : Option UserPreferences) (c : Completions) (d : Draft),
       loads (cleanCompletion c.sentiment) = none →
       (analyze_movie t prefs c).1 = .ok d →
       d.overall_sentiment = Json.str "Mixed".toList ∧
       d.audience_sentiment =
         Json.str "Audience reception varies based on individual preferences.".toList) := by
  refine ⟨?_, ?_, ?_⟩
  · intro t prefs c o d hload hlk hok
    obtain ⟨g, ov, an, hg, hov, han, hsh⟩ := analyze_movie_ok_shape t prefs c d hok
    have hex : extractJson c.sentiment sentimentFallback = Json.obj o := by
      unfold extractJson
      rw [hload]
    rw [hex] at hov
    have : Except.ok ((lookupLast o "overall".toList).getD (Json.str "Mixed".toList)) =
        Except.ok ov := hov
    rw [hlk] at this
    cases this
    exact hsh.2.2.1
  · intro t prefs c o d hload hlk hok
    obtain ⟨g, ov, an, hg, hov, han, hsh⟩ := analyze_movie_ok_shape t prefs c d hok
    have hex : extractJson c.sentiment sentimentFallback = Json.obj o := by
      unfold extractJson
      rw [hload]
    rw [hex] at han
    have : Except.ok ((lookupLast o "analysis".toList).getD (Json.str [])) =
        Except.ok an := han
    rw [hlk] at this
    cases this
    refine ⟨hsh.2.2.2.1, ?_⟩
    rw [hsh.2.2.2.1]
    intro hcontra
    cases hcontra
  · intro t prefs c d hload hok
    obtain ⟨g, ov, an, hg, hov, han, hsh⟩ := analyze_movie_ok_shape t prefs c d hok
    have hex : extractJson c.sentiment sentimentFallback = sentimentFallback := by
      unfold extractJson
      rw [hload]
    rw [hex] at hov han
    have h1 : Except.ok (Json.str "Mixed".toList) = Except.ok ov := hov
    have h2 : Except.ok
        (Json.str "Audience reception varies based on individual preferences.".toList) =
        Except.ok an := han
    cases h1
    cases h2
    exact ⟨hsh.2.2.1, hsh.2.2.2.1⟩

/-- Witness for C9: a sentiment completion `{"foo": "bar"}` (an object with
neither key) yields `overall_sentiment = "Mixed"` in the validated result. -/
theorem c9_sentiment_defaults_witness :
    c9draft.overall_sentiment = Json.str "Mixed".toList :=
  c9_sentiment_defaults.1 "The Matrix".toList none c9Completions
    [("foo".toList, Json.str "bar".toList)] c9draft rfl rfl rfl

/-- C10: for every accepted request that succeeds, the response's
`movie_title` (and the single persisted document) carries the
leading/trailing-whitespace-stripped request title, and every prompt sent
to the generation port contains that stripped title as a substring. -/
theorem c10_title_threading (req : MovieAnalysisRequest) (key : Option Pstr)
    (c : Completions) (r : MovieAnalysisResponse)
    (h : (analyze_movie_endpoint req key c).result = .ok r) :
    r.movie_title = strip req.movie_title ∧
    (analyze_movie_endpoint req key c).persisted = [r] ∧
    ∀ p ∈ (analyze_movie_endpoint req key c).prompts,
      containsSub (strip req.movie_title) p = true := by
  have hper := (c6_all_or_nothing req key c).2 r h
  obtain ⟨-, d, hd, hm⟩ := hper
  refine ⟨?_, ((c6_all_or_nothing req key c).2 r h).1, ?_⟩
  · rw [mkResponse_movie_title hm]
    obtain ⟨g, ov, an, hg, hov, han, hsh⟩ :=
      analyze_movie_ok_shape (strip req.movie_title) none c d hd
    exact hsh.1
  · intro p hp
    unfold analyze_movie_endpoint at hp
    by_cases h1 : (strip req.movie_title).length < 1
    · rw [if_pos h1] at hp
      cases hp
    · rw [if_neg h1] at hp
      by_cases h2 : (!truthyKey key) = true
      · rw [if_pos h2] at hp
        cases hp
      · rw [if_neg h2] at hp
        rcases har : analyze_movie (strip req.movie_title) none c with ⟨res, prompts⟩
        rw [har] at hp
        have hmem : p ∈ (analyze_movie (strip req.movie_title) none c).2 := by
          rw [har]
          cases res with
          | error e => exact hp
          | ok draft =>
            simp only [] at hp
            rcases hm2 : mkResponse draft with pe | resp
            · rw [hm2] at hp
              exact hp
            · rw [hm2] at hp
              exact hp
        exact analyze_movie_prompts_contain_title (strip req.movie_title) none c p hmem



/-- Witness for C10 on the Scenario B run: the returned `movie_title` is
the stripped request title. -/
theorem c10_title_threading_witness :
    (respOf outcomeB.result).movie_title = strip scenarioB_request.movie_title :=
  (c10_title_threading scenarioB_request (some "test-key".toList) benignCompletions
    (respOf outcomeB.result) (by rfl)).1

end CineMind
